import Mathlib

/-!
Shallow embedding of `src/python/dify_plugin/entities/model/message.py`
(prompt-message entities of the dify plugin SDK): the role enumeration,
prompt-message content values and their normalization, and the message
variants with their emptiness checks.

Pydantic model construction is embedded as explicit `Except`-returning
functions: a raw field map is a record of `Option` fields, a required
field that is absent yields a `missingField` error, a declared default
fills an absent optional field, and `mode="before"` field validators run
on the caller-supplied value before the field is stored.
-/

/-- `PromptMessageRole`: enum with values system / user / assistant / tool. -/
inductive PromptMessageRole where
  | SYSTEM
  | USER
  | ASSISTANT
  | TOOL
deriving DecidableEq, Repr

/-- The string value attached to each `PromptMessageRole` member. -/
def PromptMessageRole.value : PromptMessageRole → String
  | .SYSTEM => "system"
  | .USER => "user"
  | .ASSISTANT => "assistant"
  | .TOOL => "tool"

/-- Iteration order of `for mode in cls` over the enum members. -/
def PromptMessageRole.members : List PromptMessageRole :=
  [.SYSTEM, .USER, .ASSISTANT, .TOOL]

/-- The scanning loop inside `PromptMessageRole.value_of`: return the first
member whose value equals the argument, else raise `ValueError`. -/
def PromptMessageRole.value_of_loop (value : String) :
    List PromptMessageRole → Except String PromptMessageRole
  | [] => .error ("invalid prompt message type value " ++ value)
  | m :: rest =>
    if m.value == value then .ok m else PromptMessageRole.value_of_loop value rest

/-- `PromptMessageRole.value_of`: exact match of the string against the four
member values, `ValueError` (modelled as `Except.error`) otherwise. -/
def PromptMessageRole.value_of (value : String) : Except String PromptMessageRole :=
  PromptMessageRole.value_of_loop value PromptMessageRole.members

/-- `PromptMessageContentType` enum. -/
inductive PromptMessageContentType where
  | Text
  | Image
  | Audio
  | Video
  | Document
deriving DecidableEq, Repr

/-- The string value attached to each `PromptMessageContentType` member. -/
def PromptMessageContentType.value : PromptMessageContentType → String
  | .Text => "text"
  | .Image => "image"
  | .Audio => "audio"
  | .Video => "video"
  | .Document => "document"

/-- `TextPromptMessageContent`: `data` is required, no default. -/
structure TextPromptMessageContent where
  data : String
deriving DecidableEq, Repr

/-- `MultiModalPromptMessageContent`: `format` and `mime_type` are required
(`Field(default=...)` — Ellipsis — means no default); `base64_data` and `url`
default to the empty string. -/
structure MultiModalPromptMessageContent where
  format : String
  base64_data : String := ""
  url : String := ""
  mime_type : String
deriving DecidableEq, Repr

/-- The `data` property: `self.url or f"data:{self.mime_type};base64,{self.base64_data}"`.
A Python string is truthy exactly when it is non-empty. -/
def MultiModalPromptMessageContent.data (self : MultiModalPromptMessageContent) : String :=
  if self.url ≠ "" then self.url
  else "data:" ++ self.mime_type ++ ";base64," ++ self.base64_data

/-- `ImagePromptMessageContent.DETAIL` enum. -/
inductive ImageDetail where
  | LOW
  | HIGH
deriving DecidableEq, Repr

/-- The typed content union (`PromptMessageContentUnionTypes`), discriminated
by the `type` tag.  All multi-modal variants carry the
`MultiModalPromptMessageContent` fields; the image variant additionally
carries its `detail` field (default `LOW`). -/
inductive PromptMessageContentUnion where
  | text (c : TextPromptMessageContent)
  | image (c : MultiModalPromptMessageContent) (detail : ImageDetail)
  | document (c : MultiModalPromptMessageContent)
  | audio (c : MultiModalPromptMessageContent)
  | video (c : MultiModalPromptMessageContent)
deriving DecidableEq, Repr

/-- Pydantic validation failure. -/
inductive PydanticError where
  | missingField (field : String)
  | invalidValue (field : String) (value : String)
deriving DecidableEq, Repr

/-- A raw dict appearing as an element of a message `content` list.  Each
recognized key is an optional string (`none` = key absent). -/
structure RawDict where
  type : Option String := none
  data : Option String := none
  format : Option String := none
  base64_data : Option String := none
  url : Option String := none
  mime_type : Option String := none
  detail : Option String := none
deriving DecidableEq, Repr

/-- `TextPromptMessageContent(**content)`: `data` is required. -/
def TextPromptMessageContent.fromDict (d : RawDict) :
    Except PydanticError TextPromptMessageContent :=
  match d.data with
  | none => .error (.missingField "data")
  | some s => .ok { data := s }

/-- `MultiModalPromptMessageContent(**content)` field validation: `format` and
`mime_type` are required; `base64_data` and `url` default to `""`. -/
def MultiModalPromptMessageContent.fromDict (d : RawDict) :
    Except PydanticError MultiModalPromptMessageContent :=
  match d.format with
  | none => .error (.missingField "format")
  | some f =>
    match d.mime_type with
    | none => .error (.missingField "mime_type")
    | some m =>
      .ok { format := f, base64_data := d.base64_data.getD "",
            url := d.url.getD "", mime_type := m }

/-- Parsing the `detail` field of an image content dict against the
`DETAIL` enum. -/
def ImageDetail.fromString (s : String) : Except PydanticError ImageDetail :=
  if s == "low" then .ok .LOW
  else if s == "high" then .ok .HIGH
  else .error (.invalidValue "detail" s)

/-- `ImagePromptMessageContent(**content)`: multi-modal fields plus the
`detail` field with default `DETAIL.LOW`. -/
def ImagePromptMessageContent.fromDict (d : RawDict) :
    Except PydanticError (MultiModalPromptMessageContent × ImageDetail) := do
  let m ← MultiModalPromptMessageContent.fromDict d
  match d.detail with
  | none => pure (m, .LOW)
  | some s => do
    let dt ← ImageDetail.fromString s
    pure (m, dt)

/-- An element of a raw `content` list handed to `transform_content`: either
an already-typed `PromptMessageContent` instance or a raw dict. -/
inductive RawContentElem where
  | content (c : PromptMessageContentUnion)
  | dict (d : RawDict)
deriving DecidableEq, Repr

/-- Body of the loop in `PromptMessage.transform_content`: an already-typed
instance is appended unchanged; a dict is dispatched on its `"type"` tag to
the matching content class; a dict whose tag matches no branch contributes
nothing.  `content.get("type")` is `none` when the key is absent. -/
def transformContentItem (content : RawContentElem) :
    Except PydanticError (Option PromptMessageContentUnion) :=
  match content with
  | .content c => .ok (some c)
  | .dict d =>
    if d.type == some PromptMessageContentType.Text.value then
      (TextPromptMessageContent.fromDict d).map (fun t => some (.text t))
    else if d.type == some PromptMessageContentType.Image.value then
      (ImagePromptMessageContent.fromDict d).map (fun p => some (.image p.1 p.2))
    else if d.type == some PromptMessageContentType.Document.value then
      (MultiModalPromptMessageContent.fromDict d).map (fun c => some (.document c))
    else if d.type == some PromptMessageContentType.Audio.value then
      (MultiModalPromptMessageContent.fromDict d).map (fun c => some (.audio c))
    else if d.type == some PromptMessageContentType.Video.value then
      (MultiModalPromptMessageContent.fromDict d).map (fun c => some (.video c))
    else .ok none

/-- The `for content in value or []` loop of `transform_content`, building
`result` in input order; a validation error raised while constructing a
content class aborts the whole call. -/
def transform_content_loop :
    List RawContentElem → Except PydanticError (List PromptMessageContentUnion)
  | [] => .ok []
  | e :: rest => do
    let r ← transformContentItem e
    let tail ← transform_content_loop rest
    match r with
    | some c => pure (c :: tail)
    | none => pure tail

/-- The raw value handed to the `content` field before validation:
`None`, a string, or a list of raw elements. -/
inductive RawContentInput where
  | null
  | ofStr (s : String)
  | ofList (l : List RawContentElem)
deriving DecidableEq, Repr

/-- The stored (normalized) `content` value: a string or a list of typed
content values. -/
inductive NormalizedContent where
  | str (s : String)
  | list (l : List PromptMessageContentUnion)
deriving DecidableEq, Repr

/-- `PromptMessage.transform_content` (`mode="before"` validator): a string
passes through; otherwise the loop runs over `value or []`, so `None`
normalizes to the empty list. -/
def transform_content : RawContentInput → Except PydanticError NormalizedContent
  | .ofStr s => .ok (.str s)
  | .null => (transform_content_loop []).map .list
  | .ofList l => (transform_content_loop l).map .list

/-- `PromptMessage`: base message model.  `content` is `None` when the field
was omitted at construction (pydantic does not validate defaults), otherwise
the validator's output. -/
structure PromptMessage where
  role : PromptMessageRole
  content : Option NormalizedContent := none
  name : Option String := none
deriving DecidableEq, Repr

/-- `PromptMessage.is_empty`: `not self.content` — Python falsiness of the
field: `None`, `""` and `[]` are falsy. -/
def PromptMessage.is_empty (m : PromptMessage) : Bool :=
  match m.content with
  | none => true
  | some (.str s) => s == ""
  | some (.list l) => l.isEmpty

/-- `AssistantPromptMessage.ToolCall.ToolCallFunction`. -/
structure ToolCallFunction where
  name : String
  arguments : String
deriving DecidableEq, Repr

/-- A raw value handed to the `id` field of a tool call: a string or a
non-string value (modelled by an integer) whose `str()` form is taken. -/
inductive IdValue where
  | ofStr (s : String)
  | ofInt (n : Int)
deriving DecidableEq, Repr

/-- `AssistantPromptMessage.ToolCall`. -/
structure ToolCall where
  id : String
  type : String
  function : ToolCallFunction
deriving DecidableEq, Repr

/-- `ToolCall.transform_id_to_str` (`mode="before"` validator on `id`):
`if not isinstance(value, str): return str(value) else: return value`. -/
def ToolCall.transform_id_to_str (value : IdValue) : String :=
  match value with
  | .ofStr s => s
  | .ofInt n => toString n

/-- `AssistantPromptMessage`: base fields plus `tool_calls` (default `[]`). -/
structure AssistantPromptMessage where
  toPromptMessage : PromptMessage
  tool_calls : List ToolCall := []
deriving DecidableEq, Repr

/-- `AssistantPromptMessage.is_empty`:
`not (not super().is_empty() and not self.tool_calls)`. -/
def AssistantPromptMessage.is_empty (m : AssistantPromptMessage) : Bool :=
  !(!m.toPromptMessage.is_empty && m.tool_calls.isEmpty)

/-- `ToolPromptMessage`: base fields plus the required `tool_call_id`. -/
structure ToolPromptMessage where
  toPromptMessage : PromptMessage
  tool_call_id : String
deriving DecidableEq, Repr

/-- `ToolPromptMessage.is_empty`:
`not (not super().is_empty() and not self.tool_call_id)`. -/
def ToolPromptMessage.is_empty (m : ToolPromptMessage) : Bool :=
  !(!m.toPromptMessage.is_empty && m.tool_call_id == "")

/-- Validation of the `content` field at model construction: an omitted field
keeps the default `None` unvalidated; a supplied value (including an explicit
`None`) goes through `transform_content`. -/
def validateContentField (content : Option RawContentInput) :
    Except PydanticError (Option NormalizedContent) :=
  match content with
  | none => .ok none
  | some raw => (transform_content raw).map some

/-- Construction of `UserPromptMessage`: `role` has declared default
`PromptMessageRole.USER`; a supplied role is stored as given. -/
def UserPromptMessage.construct (roleOpt : Option PromptMessageRole)
    (content : Option RawContentInput) (nameOpt : Option String) :
    Except PydanticError PromptMessage := do
  let c ← validateContentField content
  pure { role := roleOpt.getD .USER, content := c, name := nameOpt }

/-- Construction of `SystemPromptMessage`: `role` defaults to
`PromptMessageRole.SYSTEM`. -/
def SystemPromptMessage.construct (roleOpt : Option PromptMessageRole)
    (content : Option RawContentInput) (nameOpt : Option String) :
    Except PydanticError PromptMessage := do
  let c ← validateContentField content
  pure { role := roleOpt.getD .SYSTEM, content := c, name := nameOpt }

/-- Construction of `AssistantPromptMessage`: `role` defaults to
`PromptMessageRole.ASSISTANT`, `tool_calls` to `[]`. -/
def AssistantPromptMessage.construct (roleOpt : Option PromptMessageRole)
    (content : Option RawContentInput) (nameOpt : Option String)
    (tool_calls : List ToolCall) : Except PydanticError AssistantPromptMessage := do
  let c ← validateContentField content
  pure { toPromptMessage := { role := roleOpt.getD .ASSISTANT, content := c, name := nameOpt },
         tool_calls := tool_calls }

/-- Construction of `ToolPromptMessage`: `role` defaults to
`PromptMessageRole.TOOL`; `tool_call_id` is required. -/
def ToolPromptMessage.construct (roleOpt : Option PromptMessageRole)
    (content : Option RawContentInput) (nameOpt : Option String)
    (tool_call_id : String) : Except PydanticError ToolPromptMessage := do
  let c ← validateContentField content
  pure { toPromptMessage := { role := roleOpt.getD .TOOL, content := c, name := nameOpt },
         tool_call_id := tool_call_id }

/-! ## Claims -/

/-- Claim C1 (code bug): the spec says `AssistantPromptMessage.is_empty` is
true iff the base emptiness holds AND `tool_calls` is empty, so a message
with null content and one tool call should be non-empty.  The code computes
`not (not super().is_empty() and not self.tool_calls)`, i.e. base-empty OR
tool-calls-nonempty: with null content and one tool call it returns `true`,
and even with the non-empty content `"hello"` plus a tool call it still
returns `true`. -/
theorem spec_C1 :
    Except.map AssistantPromptMessage.is_empty
        (AssistantPromptMessage.construct none (some .null) none
          [{ id := "1", type := "function", function := { name := "f", arguments := "" } }])
      = .ok true
  ∧ Except.map AssistantPromptMessage.is_empty
        (AssistantPromptMessage.construct none (some (.ofStr "hello")) none
          [{ id := "1", type := "function", function := { name := "f", arguments := "" } }])
      = .ok true :=
  ⟨rfl, rfl⟩

/-- Claim C2 (code bug): the spec says `ToolPromptMessage.is_empty` is true
iff the base emptiness holds AND `tool_call_id` is empty, so a message with
null content and a non-empty `tool_call_id` should be non-empty.  The code
computes `not (not super().is_empty() and not self.tool_call_id)`, i.e.
base-empty OR id-nonempty: with null content and id `"call-1"` it returns
`true`, and even with content `"hello"` and id `"call-1"` it returns `true`.
(With null content and empty id both code and spec give `true`.) -/
theorem spec_C2 :
    Except.map ToolPromptMessage.is_empty
        (ToolPromptMessage.construct none (some .null) none "call-1") = .ok true
  ∧ Except.map ToolPromptMessage.is_empty
        (ToolPromptMessage.construct none (some .null) none "") = .ok true
  ∧ Except.map ToolPromptMessage.is_empty
        (ToolPromptMessage.construct none (some (.ofStr "hello")) none "call-1") = .ok true :=
  ⟨rfl, rfl, rfl⟩

/-- Claim C3, counterexample: the canonical role of each variant is only a
pydantic default, not forced — constructing a `UserPromptMessage` with an
explicit `role = ASSISTANT` stores `ASSISTANT`, not the canonical `USER`. -/
theorem spec_C3_counterexample :
    UserPromptMessage.construct (some PromptMessageRole.ASSISTANT) none none
        = .ok { role := PromptMessageRole.ASSISTANT }
  ∧ PromptMessageRole.ASSISTANT ≠ PromptMessageRole.USER :=
  ⟨rfl, by decide⟩

/-- Claim C3, amended: on every successful construction of a variant, the
stored role is the caller-supplied role when one is given, and the variant's
canonical enumeration value when the role is omitted. -/
theorem spec_C3 (roleOpt : Option PromptMessageRole) (content : Option RawContentInput)
    (nameOpt : Option String) :
    (∀ m, UserPromptMessage.construct roleOpt content nameOpt = .ok m →
        m.role = roleOpt.getD .USER)
  ∧ (∀ m, SystemPromptMessage.construct roleOpt content nameOpt = .ok m →
        m.role = roleOpt.getD .SYSTEM)
  ∧ (∀ tcs m, AssistantPromptMessage.construct roleOpt content nameOpt tcs = .ok m →
        m.toPromptMessage.role = roleOpt.getD .ASSISTANT)
  ∧ (∀ tcid m, ToolPromptMessage.construct roleOpt content nameOpt tcid = .ok m →
        m.toPromptMessage.role = roleOpt.getD .TOOL) := by
  refine ⟨fun m h => ?_, fun m h => ?_, fun tcs m h => ?_, fun tcid m h => ?_⟩ <;>
    cases hv : validateContentField content <;>
    simp_all [UserPromptMessage.construct, SystemPromptMessage.construct,
      AssistantPromptMessage.construct, ToolPromptMessage.construct] <;>
    rw [← h]

/-- Claim C3, witness: constructing a user message with the role omitted
yields the canonical `USER` role. -/
theorem spec_C3_witness :
    ({ role := PromptMessageRole.USER } : PromptMessage).role
      = (none : Option PromptMessageRole).getD PromptMessageRole.USER :=
  (spec_C3 none none none).1 { role := PromptMessageRole.USER } rfl

/-- Claim C5: the `data` accessor of a multi-modal content value returns
`url` when `url` is non-empty, and otherwise the data-URI
`"data:" ++ mime_type ++ ";base64," ++ base64_data`. -/
theorem spec_C5 (c : MultiModalPromptMessageContent) :
    (c.url ≠ "" → MultiModalPromptMessageContent.data c = c.url)
  ∧ (c.url = "" →
      MultiModalPromptMessageContent.data c
        = "data:" ++ c.mime_type ++ ";base64," ++ c.base64_data) := by
  unfold MultiModalPromptMessageContent.data
  constructor
  · intro h
    simp [h]
  · intro h
    simp [h]

/-- Claim C5, witness: with `url = ""`, `mime_type = "image/png"` and
`base64_data = "AAAA"`, the accessor yields `"data:image/png;base64,AAAA"`. -/
theorem spec_C5_witness :
    MultiModalPromptMessageContent.data
        { format := "png", base64_data := "AAAA", url := "", mime_type := "image/png" }
      = "data:image/png;base64,AAAA" := by
  have h :=
    (spec_C5 { format := "png", base64_data := "AAAA", url := "", mime_type := "image/png" }).2 rfl
  rw [h]
  rfl

/-- `value_of` on the first member value. -/
lemma value_of_system : PromptMessageRole.value_of "system" = .ok .SYSTEM := rfl

/-- `value_of` on the second member value. -/
lemma value_of_user : PromptMessageRole.value_of "user" = .ok .USER := rfl

/-- `value_of` on the third member value. -/
lemma value_of_assistant : PromptMessageRole.value_of "assistant" = .ok .ASSISTANT := rfl

/-- `value_of` on the fourth member value. -/
lemma value_of_tool : PromptMessageRole.value_of "tool" = .ok .TOOL := rfl

/-- `value_of` raises `ValueError` on a string matching no member value. -/
lemma value_of_no_match (v : String) (h1 : v ≠ "system") (h2 : v ≠ "user")
    (h3 : v ≠ "assistant") (h4 : v ≠ "tool") :
    PromptMessageRole.value_of v = .error ("invalid prompt message type value " ++ v) := by
  unfold PromptMessageRole.value_of PromptMessageRole.members
  simp [PromptMessageRole.value_of_loop, PromptMessageRole.value,
    Ne.symm h1, Ne.symm h2, Ne.symm h3, Ne.symm h4]

/-- Claim C6: `value_of` succeeds exactly on the four canonical role strings
and round-trips there (the returned role's value is the input); on every
other string it raises `ValueError` with the message
`"invalid prompt message type value " ++ v`. -/
theorem spec_C6 (v : String) :
    ((PromptMessageRole.value_of v).toOption.map PromptMessageRole.value
      = if v = "system" ∨ v = "user" ∨ v = "assistant" ∨ v = "tool" then some v else none)
  ∧ ((PromptMessageRole.value_of v).toOption = none →
      PromptMessageRole.value_of v
        = .error ("invalid prompt message type value " ++ v)) := by
  by_cases h1 : v = "system" <;> by_cases h2 : v = "user" <;>
    by_cases h3 : v = "assistant" <;> by_cases h4 : v = "tool" <;>
    simp_all [value_of_system, value_of_user, value_of_assistant, value_of_tool,
      value_of_no_match, PromptMessageRole.value, Except.toOption]

/-- Claim C6, witness: on the non-canonical string `"bogus"`, `value_of`
fails with the `ValueError` message. -/
theorem spec_C6_witness :
    PromptMessageRole.value_of "bogus"
      = .error ("invalid prompt message type value " ++ "bogus") :=
  (spec_C6 "bogus").2 rfl

/-- Claim C7: the tool-call id validator returns a string argument
unchanged and the canonical string form (`str(value)`) of a non-string
argument; in particular `42` becomes `"42"` and `"abc"` stays `"abc"`. -/
theorem spec_C7 :
    (∀ s, ToolCall.transform_id_to_str (.ofStr s) = s)
  ∧ (∀ n, ToolCall.transform_id_to_str (.ofInt n) = toString n)
  ∧ ToolCall.transform_id_to_str (.ofInt 42) = "42"
  ∧ ToolCall.transform_id_to_str (.ofStr "abc") = "abc" :=
  ⟨fun _ => rfl, fun _ => rfl, rfl, rfl⟩

/-- Claim C10: content supplied explicitly as `None` is normalized by the
validator to the empty list (not kept as `None`), and the resulting message
is empty under the base rule. -/
theorem spec_C10 (roleOpt : Option PromptMessageRole) (nameOpt : Option String) :
    transform_content RawContentInput.null = .ok (.list [])
  ∧ Except.map (fun m => (m.content, PromptMessage.is_empty m))
        (UserPromptMessage.construct roleOpt (some .null) nameOpt)
      = .ok (some (NormalizedContent.list []), true) :=
  ⟨rfl, rfl⟩

/-- Reduction of `Except` bind on a success value. -/
lemma except_bind_ok {ε α β : Type} (x : α) (f : α → Except ε β) :
    (Except.ok x : Except ε α) >>= f = f x := rfl

/-- Reduction of `Except` bind on an error value. -/
lemma except_bind_error {ε α β : Type} (e : ε) (f : α → Except ε β) :
    (Except.error e : Except ε α) >>= f = .error e := rfl

/-- Reduction of `pure` into `Except`. -/
lemma except_pure_eq_ok {ε α : Type} (x : α) : (pure x : Except ε α) = .ok x := rfl

/-- Reduction of `Except.map` on a success value. -/
lemma except_map_ok_eq {ε α β : Type} (f : α → β) (x : α) :
    Except.map f (Except.ok x : Except ε α) = .ok (f x) := rfl

/-- Reduction of `Except.map` on an error value. -/
lemma except_map_error_eq {ε α β : Type} (f : α → β) (e : ε) :
    Except.map f (Except.error e : Except ε α) = .error e := rfl

/-- Claim C4: a dict element whose `type` tag matches none of the five
recognized content kinds is silently dropped by the normalization loop (no
error, no output item), and the whole normalization of a one-element list
holding such a dict is the empty list. -/
theorem spec_C4 (d : RawDict) (l : List RawContentElem)
    (h : d.type ∉ ([some "text", some "image", some "document", some "audio",
        some "video"] : List (Option String))) :
    transform_content_loop (RawContentElem.dict d :: l) = transform_content_loop l
  ∧ transform_content (RawContentInput.ofList [RawContentElem.dict d])
      = .ok (.list []) := by
  simp only [List.mem_cons, List.mem_singleton] at h
  push_neg at h
  obtain ⟨h1, h2, h3, h4, h5, -⟩ := h
  have hitem : transformContentItem (RawContentElem.dict d) = .ok none := by
    simp [transformContentItem, PromptMessageContentType.value, h1, h2, h3, h4, h5]
  constructor
  · cases hloop : transform_content_loop l <;>
      simp [transform_content_loop, hitem, hloop, except_bind_ok, except_bind_error,
        except_pure_eq_ok]
  · simp [transform_content, transform_content_loop, hitem, except_bind_ok,
      except_pure_eq_ok, except_map_ok_eq]

/-- Claim C4, witness: `[{"type": "bogus"}]` normalizes to the empty list
without an error. -/
theorem spec_C4_witness :
    transform_content_loop [RawContentElem.dict { type := some "bogus" }]
        = transform_content_loop []
  ∧ transform_content (RawContentInput.ofList [RawContentElem.dict { type := some "bogus" }])
      = .ok (.list []) :=
  spec_C4 { type := some "bogus" } [] (by decide)

/-- Claim C8: when the normalization loop succeeds, its output is the
order-preserving filter-map of the per-element normalization over the input
(each kept element in input order), and an element that is already a typed
content value is passed through unchanged. -/
theorem spec_C8 (l : List RawContentElem) (res : List PromptMessageContentUnion)
    (h : transform_content_loop l = .ok res) :
    res = l.filterMap (fun e => (transformContentItem e).toOption.join)
  ∧ ∀ c, transformContentItem (RawContentElem.content c) = .ok (some c) := by
  refine ⟨?_, fun c => rfl⟩
  induction l generalizing res with
  | nil =>
    simp [transform_content_loop] at h
    simp [h]
  | cons e rest ih =>
    cases hi : transformContentItem e with
    | error err =>
      simp [transform_content_loop, hi, except_bind_error] at h
    | ok r =>
      cases hrest : transform_content_loop rest with
      | error err =>
        simp [transform_content_loop, hi, hrest, except_bind_ok, except_bind_error] at h
      | ok tail =>
        have htail := ih tail hrest
        cases r with
        | none =>
          simp [transform_content_loop, hi, hrest, except_bind_ok,
            except_pure_eq_ok] at h
          subst h
          simp [List.filterMap_cons, hi, Except.toOption, Option.join, htail]
        | some c =>
          simp [transform_content_loop, hi, hrest, except_bind_ok,
            except_pure_eq_ok] at h
          subst h
          simp [List.filterMap_cons, hi, Except.toOption, Option.join, htail]

/-- Claim C8, witness: a typed text value followed by an unknown-tag dict
normalizes to just that text value, in order and unchanged. -/
theorem spec_C8_witness :
    ([PromptMessageContentUnion.text { data := "hi" }]
        = List.filterMap (fun e => (transformContentItem e).toOption.join)
            [RawContentElem.content (.text { data := "hi" }),
             RawContentElem.dict { type := some "bogus" }])
  ∧ ∀ c, transformContentItem (RawContentElem.content c) = .ok (some c) :=
  spec_C8
    [RawContentElem.content (.text { data := "hi" }),
     RawContentElem.dict { type := some "bogus" }]
    [PromptMessageContentUnion.text { data := "hi" }] rfl

/-- Claim C9: a dict carrying a recognized `type` tag fails with a
missing-field error when a required field is absent: `data` for text
content, and `format` (checked first) or `mime_type` for the four
multi-modal kinds. -/
theorem spec_C9 (d : RawDict) :
    (d.type = some "text" → d.data = none →
        transformContentItem (RawContentElem.dict d) = .error (.missingField "data"))
  ∧ (∀ t, (t = "image" ∨ t = "document" ∨ t = "audio" ∨ t = "video") →
        d.type = some t → d.format = none →
        transformContentItem (RawContentElem.dict d) = .error (.missingField "format"))
  ∧ (∀ t, (t = "image" ∨ t = "document" ∨ t = "audio" ∨ t = "video") →
        d.type = some t → d.format ≠ none → d.mime_type = none →
        transformContentItem (RawContentElem.dict d)
          = .error (.missingField "mime_type")) := by
  refine ⟨fun ht hd => ?_, fun t hmem ht hf => ?_, fun t hmem ht hf hm => ?_⟩
  · simp [transformContentItem, TextPromptMessageContent.fromDict,
      PromptMessageContentType.value, ht, hd, except_map_error_eq]
  · rcases hmem with h | h | h | h <;> subst h <;>
      simp [transformContentItem, ImagePromptMessageContent.fromDict,
        MultiModalPromptMessageContent.fromDict, PromptMessageContentType.value,
        ht, hf, except_map_error_eq, except_bind_error]
  · rcases hfd : d.format with _ | f
    · exact absurd hfd hf
    · rcases hmem with h | h | h | h <;> subst h <;>
        simp [transformContentItem, ImagePromptMessageContent.fromDict,
          MultiModalPromptMessageContent.fromDict, PromptMessageContentType.value,
          ht, hfd, hm, except_map_error_eq, except_bind_error]

/-- Claim C9, witness: a text dict without `data` fails with missing `data`;
an image dict without `format` fails with missing `format`; an audio dict
with `format` but without `mime_type` fails with missing `mime_type`. -/
theorem spec_C9_witness :
    transformContentItem (RawContentElem.dict { type := some "text" })
        = .error (.missingField "data")
  ∧ transformContentItem (RawContentElem.dict { type := some "image" })
        = .error (.missingField "format")
  ∧ transformContentItem (RawContentElem.dict { type := some "audio", format := some "mp3" })
        = .error (.missingField "mime_type") :=
  ⟨(spec_C9 { type := some "text" }).1 rfl rfl,
   (spec_C9 { type := some "image" }).2.1 "image" (Or.inl rfl) rfl rfl,
   (spec_C9 { type := some "audio", format := some "mp3" }).2.2 "audio"
     (Or.inr (Or.inr (Or.inl rfl))) rfl (by simp) rfl⟩
